import Mathlib

/-!
Verification development for the `conductor` orchestrator.

This file gives a shallow embedding, in Lean 4, of the core data
structures and operations of the repository — the dependency DAG
(`src/conductor/dag.py`), the bounded agent-session pool
(`src/conductor/pool.py`), the health/recovery protocol
(`src/conductor/health.py`), the dispatch protocol
(`src/conductor/dispatch.py`) and the `PhaseContext` construction
performed by the orchestrator runner (`src/conductor/runner.py` /
`src/conductor/phases.py`) — together with theorems settling the
behavioural claims made by the specification.

Modelling conventions:
* Python `dict`s keyed by a field are modelled as insertion-ordered
  lists of records; the dictionary key-uniqueness property appears as
  an explicit `Nodup` hypothesis where a theorem needs it.
* Machine integers are `Nat`/`Int`; timestamps are `Int`.
* Exceptions are `Except`/explicit outcome constructors.
* External side effects (tmux subprocess calls, database writes,
  artifact deletion) are recorded as explicit event traces.
* Unbounded `while` loops are given explicit fuel; every use passes
  fuel provably larger than the number of iterations the Python loop
  can perform, and concrete evaluations never hit the fuel-out branch.
-/

/-! ### Dependency DAG (`src/conductor/dag.py`) -/

/-- A node in the dependency graph (`DAGNode` dataclass). -/
structure DAGNode where
  number : Nat
  title : String
  blocked_by : List Nat
  phase : String
deriving DecidableEq, Repr

/-- The `DAG` class. The Python `self._nodes : dict[int, DAGNode]` is modelled
as the insertion-ordered list of its values; key uniqueness (a dict property)
is assumed via `Nodup` hypotheses in the general theorems. -/
structure DAG where
  entries : List DAGNode
deriving DecidableEq, Repr

/-- Dictionary key list of `self._nodes` (insertion order). -/
def DAG.nodeIds (g : DAG) : List Nat :=
  g.entries.map (fun nd => nd.number)

/-- `DAG.get_node`: dictionary lookup `self._nodes.get(number)`. -/
def DAG.getNode (g : DAG) (number : Nat) : Option DAGNode :=
  g.entries.find? (fun nd => nd.number == number)

/-- The `DAG.nodes` property: `sorted(self._nodes.values(), key=lambda n: n.number)`. -/
def DAG.nodes (g : DAG) : List DAGNode :=
  List.insertionSort (fun a b => a.number ≤ b.number) g.entries

/-- `DAG.dependents`: `sorted(n.number for n in self._nodes.values() if number in n.blocked_by)`. -/
def DAG.dependents (g : DAG) (number : Nat) : List Nat :=
  List.insertionSort (fun a b => a ≤ b)
    ((g.entries.filter (fun nd => nd.blocked_by.contains number)).map (fun nd => nd.number))

/-- `DAG.is_blocked`: true iff some `blocked_by` entry is absent from the
resolved set (the Python `completed or set()` default collapses to the same
check on an empty set). -/
def DAG.is_blocked (g : DAG) (number : Nat) (completed : List Nat) : Bool :=
  match g.getNode number with
  | none => false
  | some node => node.blocked_by.any (fun b => !(completed.contains b))

/-- `DAG.ready_issues`: nodes (in ascending-number order, via the `nodes`
property) not already completed and not blocked. -/
def DAG.ready_issues (g : DAG) (completed : List Nat) : List DAGNode :=
  g.nodes.filter
    (fun n => !(completed.contains n.number) && !(g.is_blocked n.number completed))

/-- The initial in-degree map of `DAG.topological_sort`: starts at 0 for every
node, then `for node in values: for dep in node.blocked_by: if dep in nodes:
in_degree[node.number] += 1`. Note that duplicate entries of `blocked_by` are
counted with multiplicity, exactly as in the source. -/
def inDegreeInit (g : DAG) : Nat → Int :=
  g.entries.foldl
    (fun deg node =>
      node.blocked_by.foldl
        (fun dg dep =>
          if (g.getNode dep).isSome then
            fun m => if m = node.number then dg m + 1 else dg m
          else dg)
        deg)
    (fun _ => 0)

/-- One iteration body of Kahn's loop: `for dependent in self.dependents(current):
in_degree[dependent] -= 1; if in_degree[dependent] == 0: queue.append(dependent)`.
Returns the updated map and the list of newly appended queue entries, in
iteration order. -/
def kahnStep (g : DAG) (deg : Nat → Int) (current : Nat) : (Nat → Int) × List Nat :=
  (g.dependents current).foldl
    (fun acc dependent =>
      let deg' := fun m => if m = dependent then acc.1 m - 1 else acc.1 m
      if deg' dependent = 0 then (deg', acc.2 ++ [dependent]) else (deg', acc.2))
    (deg, [])

/-- The `while queue:` loop of `DAG.topological_sort`, with fuel. Each
iteration pops the queue front (`popleft`), appends it to the result, and runs
`kahnStep`. The fuel passed by `topological_sort` (node count + 1) exceeds the
possible number of iterations, since every iteration appends a fresh node to
the result. -/
def kahnLoop (g : DAG) : Nat → List Nat → (Nat → Int) → List Nat → List Nat × (Nat → Int)
  | 0, _, deg, result => (result, deg)
  | _ + 1, [], deg, result => (result, deg)
  | fuel + 1, current :: queue, deg, result =>
    let s := kahnStep g deg current
    kahnLoop g fuel (queue ++ s.2) s.1 (result ++ [current])

/-- The walk of `DAG._find_cycle`: follow `step` until a node repeats
(`while current not in visited`), returning the repeated node. The fuel passed
(node count + 1) exceeds the possible number of iterations because `visited`
grows by a fresh node each time. -/
def walkUntilRepeat (step : Nat → Nat) : Nat → List Nat → Nat → Nat
  | 0, _, current => current
  | fuel + 1, visited, current =>
    if visited.contains current then current
    else walkUntilRepeat step fuel (current :: visited) (step current)

/-- The cycle-reconstruction loop of `DAG._find_cycle`: `while nxt != cycle_start:
cycle.append(nxt); nxt = step nxt`, followed by the final `cycle.append(cycle_start)`.
Produces the cycle list *after* the leading `cycle_start` element. -/
def cycleTail (step : Nat → Nat) (cycleStart : Nat) : Nat → Nat → List Nat
  | 0, _ => [cycleStart]
  | fuel + 1, nxt =>
    if nxt = cycleStart then [cycleStart]
    else nxt :: cycleTail step cycleStart fuel (step nxt)

/-- Models `next(iter(remaining))` on the Python `set` of remaining node ids.
CPython iterates a set of small non-negative ints (below the hash-table size)
in ascending numeric order, so the first element yielded is the minimum; all
node ids appearing in the concrete evaluations of this file are small enough
for that to be exact. -/
def setIterFirst (l : List Nat) : Option Nat :=
  l.min?

/-- The `next((b for b in node.blocked_by if b in remaining), current)` step
function of `DAG._find_cycle`: the first `blocked_by` entry of `current` that
lies in `remaining`, defaulting to `current` itself. -/
def findCycleStep (g : DAG) (remaining : List Nat) (current : Nat) : Nat :=
  (((g.getNode current).elim [] (fun nd => nd.blocked_by)).find?
    (fun b => remaining.contains b)).getD current

/-- `DAG._find_cycle`: extract one cycle from the nodes left with positive
in-degree after Kahn's loop. -/
def find_cycle (g : DAG) (deg : Nat → Int) : List Nat :=
  let remaining := g.nodeIds.filter (fun n => decide (0 < deg n))
  match setIterFirst remaining with
  | none => []
  | some start =>
    let step := findCycleStep g remaining
    let cycleStart := walkUntilRepeat step (g.entries.length + 1) [] start
    cycleStart :: cycleTail step cycleStart (g.entries.length + 1) (step cycleStart)

/-- Result of `DAG.topological_sort`: either the computed order or the raised
`CycleError`, carrying its cycle list. -/
inductive TopoOutcome where
  | ok (order : List Nat)
  | cycleError (cycle : List Nat)
deriving DecidableEq, Repr

/-- `DAG.topological_sort`: Kahn's algorithm; the queue is seeded with
`sorted(n for n, d in in_degree.items() if d == 0)` and the `CycleError`
branch fires when the result is shorter than the node count. -/
def topological_sort (g : DAG) : TopoOutcome :=
  let deg0 := inDegreeInit g
  let queue0 := List.insertionSort (fun a b => a ≤ b)
    (g.nodeIds.filter (fun n => deg0 n == 0))
  let out := kahnLoop g (g.entries.length + 1) queue0 deg0 []
  if out.1.length = g.entries.length then TopoOutcome.ok out.1
  else TopoOutcome.cycleError (find_cycle g out.2)

/-- An edge of the dependency graph as traversed by `_find_cycle` and as
described by the spec's cycle reports: the pair `(a, b)` is an edge when `b`
appears among `a`'s `blocked_by` entries and both endpoints are nodes of the
graph. -/
def edgeB (g : DAG) (a b : Nat) : Bool :=
  decide (a ∈ g.nodeIds) && decide (b ∈ g.nodeIds)
    && decide (b ∈ (g.getNode a).elim [] (fun nd => nd.blocked_by))

/-- Consecutive pairs of the list are all edges in the sense of `edgeB`. -/
def chainEdgesB (g : DAG) : List Nat → Bool
  | a :: b :: rest => edgeB g a b && chainEdgesB g (b :: rest)
  | _ => true

/-- A closed walk along `blocked_by` edges: at least two elements, first
element repeated as the last, and every consecutive pair an actual edge. -/
def isCycleWalk (g : DAG) (l : List Nat) : Bool :=
  decide (2 ≤ l.length) && decide (l.head? = l.getLast?) && chainEdgesB g l

/-- The graph contains a dependency cycle: some closed walk along
`blocked_by` edges exists. -/
def HasCycle (g : DAG) : Prop :=
  ∃ l : List Nat, isCycleWalk g l = true

/-! ### Agent session pool (`src/conductor/pool.py`) -/

/-- The `AgentSession` dataclass. `worktree` paths are strings; timestamps are
integers. The `model` field is `str | None` in the source. -/
structure PAgentSession where
  name : String
  worktree : String
  model : Option String
  busy : Bool
  last_used : Int
deriving DecidableEq, Repr

/-- The mutable state of `AgentPool`: configuration plus the session table
`self._sessions : dict[str, AgentSession]` (modelled as the insertion-ordered
list of its values, keyed by `name`) and the monotone name counter
`self._next_id`. -/
structure PoolState where
  max_sessions : Nat
  idle_ttl : Int
  default_model : String
  sessions : List PAgentSession
  next_id : Nat
deriving DecidableEq, Repr

/-- Side effects the pool performs against the tmux backend. -/
inductive PoolEvent where
  | createBackend (name : String)
  | killBackend (name : String)
  | send (name : String) (text : String)
deriving DecidableEq, Repr

/-- The capacity-error message raised by `AgentPool.acquire`. -/
def capacityMsg (maxSessions : Nat) : String :=
  "Pool at max capacity (" ++ toString maxSessions ++ "), all sessions busy"

/-- `AgentPool._make_name`: `f"conductor-agent-{self._next_id}"`. -/
def makeName (id : Nat) : String :=
  "conductor-agent-" ++ toString id

/-- In-place mutation of a session object owned by the table: replace the
(unique-named) entry of the same name. -/
def listUpdateSession (sessions : List PAgentSession) (s' : PAgentSession) :
    List PAgentSession :=
  sessions.map (fun s => if s.name = s'.name then s' else s)

/-- `AgentPool.acquire`: reuse the first idle session (reassigning its
worktree, refreshing `last_used`, switching model when the configured model
differs from the requested one), else create a new session unless the table
is at capacity, in which case a `RuntimeError` is raised. The returned
triple is (session handed to the caller, new pool state, backend side
effects in order). -/
def acquire (st : PoolState) (worktree : String) (model : Option String) (now : Int) :
    Except String (PAgentSession × PoolState × List PoolEvent) :=
  let target := model.getD st.default_model
  match st.sessions.find? (fun s => !s.busy) with
  | some s =>
    let s₁ : PAgentSession := { s with busy := true, worktree := worktree, last_used := now }
    if s.model = some target then
      Except.ok (s₁, { st with sessions := listUpdateSession st.sessions s₁ }, [])
    else
      let s₂ : PAgentSession := { s₁ with model := some target }
      Except.ok (s₂, { st with sessions := listUpdateSession st.sessions s₂ },
        [PoolEvent.send s.name ("/model " ++ target)])
  | none =>
    if st.sessions.length ≥ st.max_sessions then
      Except.error (capacityMsg st.max_sessions)
    else
      let name := makeName st.next_id
      let s : PAgentSession := ⟨name, worktree, some target, true, now⟩
      Except.ok (s,
        { st with sessions := st.sessions ++ [s], next_id := st.next_id + 1 },
        [PoolEvent.createBackend name])

/-- `AgentPool.release`: mark the session idle and refresh `last_used`. The
Python method mutates the session object it is handed; since the table owns
that object, the model updates the table entry of the same name. -/
def release (st : PoolState) (name : String) (now : Int) : PoolState :=
  let sessions' := st.sessions.map
    (fun s => if s.name = name then { s with busy := false, last_used := now } else s)
  { st with sessions := sessions' }

/-- `AgentPool.drain_idle`: collect the names of idle sessions whose age
meets the TTL (`(now - s.last_used) >= self._idle_ttl`), then kill and delete
each; returns the eviction count, the new state and the kill side effects. -/
def drain_idle (st : PoolState) (now : Int) : Nat × PoolState × List PoolEvent :=
  let expired :=
    (st.sessions.filter
      (fun s => !s.busy && decide (st.idle_ttl ≤ now - s.last_used))).map
      (fun s => s.name)
  let sessions' := expired.foldl (fun acc n => acc.eraseP (fun s => s.name = n)) st.sessions
  (expired.length, { st with sessions := sessions' }, expired.map PoolEvent.killBackend)

/-- Effect of one pool side effect on the set of live tmux backend sessions
(a list of names; `kill-session` removes the named session). -/
def applyPoolEvent (backend : List String) : PoolEvent → List String
  | PoolEvent.createBackend n => backend ++ [n]
  | PoolEvent.killBackend n => backend.erase n
  | PoolEvent.send _ _ => backend

/-- Fold a trace of pool side effects over the live-backend list. -/
def applyPoolEvents (backend : List String) (evs : List PoolEvent) : List String :=
  evs.foldl applyPoolEvent backend

/-! ### Health recovery (`src/conductor/health.py`) -/

/-- Outcome of `recover`. -/
inductive RecoverResult where
  | nudged (sessionName : String) (newNudgeCount : Nat)
  | retried (newSessionName : String) (newRetryCount : Nat)
  | escalate
  | poolError (msg : String)
deriving DecidableEq, Repr

/-- State after a `recover` call: its outcome, the pool table, the live
backends and the side effects performed. -/
structure RecoverOut where
  result : RecoverResult
  pool : PoolState
  backend : List String
  events : List PoolEvent
deriving DecidableEq, Repr

/-- The nudge message sent by `recover`. -/
def nudgeMsg : String :=
  "You appear stuck. Please continue and write your output file."

/-- `health.recover`: the dynamic `_nudge_count` / `_retry_count` attributes
the source bolts onto the session object are passed (and returned) explicitly.
While nudges remain, send a nudge; else while retries remain, kill the
session's backend via `pool._kill_session` (which does *not* touch the
session table) and `pool.acquire` a replacement for the same worktree/model,
then replay the task text into it; else escalate. -/
def recover (st : PoolState) (backend : List String) (s : PAgentSession)
    (nudgeCount retryCount maxNudges maxRetries : Nat) (taskText : String) (now : Int) :
    RecoverOut :=
  if nudgeCount < maxNudges then
    ⟨RecoverResult.nudged s.name (nudgeCount + 1), st,
      backend, [PoolEvent.send s.name nudgeMsg]⟩
  else if retryCount < maxRetries then
    let backend₁ := backend.erase s.name
    match acquire st s.worktree s.model now with
    | Except.error e =>
      ⟨RecoverResult.poolError e, st, backend₁, [PoolEvent.killBackend s.name]⟩
    | Except.ok (s', st', ev) =>
      ⟨RecoverResult.retried s'.name (retryCount + 1), st',
        applyPoolEvents backend₁ ev,
        [PoolEvent.killBackend s.name] ++ ev ++ [PoolEvent.send s'.name taskText]⟩
  else
    ⟨RecoverResult.escalate, st, backend, []⟩

/-! ### Dispatch protocol (`src/conductor/dispatch.py`) -/

/-- The `StepResult` class: `success`, optional parsed `output`, optional
`error` string. -/
structure PStepResult (α : Type) where
  success : Bool
  output : Option α
  error : Option String
deriving DecidableEq, Repr

/-- Observable actions performed by `dispatch_step`, in program order:
database writes on the step row, the input-artifact write, the session
acquisition, tmux sends (context clear, prompt, corrective retry prompts),
deletion of an invalid output artifact, and the `finally`-block release. -/
inductive DEvent where
  | dbInsert
  | dbUpdateStep (status : String) (error : Option String)
  | writeInput
  | acquired (name : String)
  | sent (name : String) (text : String)
  | unlinked
  | released (name : String)
deriving DecidableEq, Repr

/-- How one poll-loop iteration's environment looks to `dispatch_step`:
whether `shutdown_event.is_set()`, whether the deadline has passed
(`timeout is not None and time.monotonic() >= deadline`), the current
content of the output artifact (`none` = file absent), and whether the
tmux send of a corrective retry prompt (if one happens this iteration)
succeeds or raises. -/
structure DTick where
  shutdownSet : Bool
  timedOut : Bool
  file : Option String
  retrySendOk : Except String Unit

/-- Overall outcome of `dispatch_step`: a returned `StepResult`, a raised
exception, or (for a finite observation list) the poll loop still running. -/
inductive DOutcome (α : Type) where
  | finished (r : PStepResult α)
  | exnRaised (msg : String)
  | running
deriving DecidableEq, Repr

/-- `dispatch._build_prompt`. -/
def buildPrompt (inputPath outputPath : String) : String :=
  "Read the task specification at " ++ inputPath ++ ". " ++
  "It contains a JSON object with the issue context, phase, and requirements. " ++
  "Complete the task described in the specification. " ++
  "Write ONLY valid JSON output (no markdown, no commentary) to " ++ outputPath ++ ". " ++
  "The output must match the schema expected by the conductor pipeline."

/-- The corrective message sent on a validation failure with retries left. -/
def retryPrompt (exc outputPath : String) : String :=
  "Your output had a validation error: " ++ exc ++ ". Please fix and rewrite " ++
  outputPath ++ "."

/-- The `ValueError` message for the non-dispatchable `"python"` tier. -/
def pythonTierMsg (stepId : String) : String :=
  "Step " ++ stepId ++ " is a python step and cannot be dispatched to an agent"

/-- The exhaustion error recorded when validation fails with no retries left. -/
def validationFailMsg (exc : String) : String :=
  "Validation failed after retries: " ++ exc

/-- The `while True:` poll loop of `dispatch_step`. `validate` models
`_validate_output` (`json.loads` + pydantic validation), returning the parsed
output or the exception text. Per iteration: the cancellation check, the
deadline check, the output-file read (sleeping and retrying when absent), and
validation with the bounded retry protocol (`retries_left <= 0` exhausts;
otherwise delete the artifact, decrement, send the corrective prompt to the
same session and continue polling). -/
def pollLoop (validate : String → Except String α) (sname outPath : String) :
    List DTick → Nat → List DEvent × DOutcome α
  | [], _ => ([], DOutcome.running)
  | t :: rest, retriesLeft =>
    if t.shutdownSet then
      ([DEvent.dbUpdateStep "cancelled" (some "shutdown")],
        DOutcome.finished ⟨false, none, some "shutdown"⟩)
    else if t.timedOut then
      ([DEvent.dbUpdateStep "failed" (some "timeout")],
        DOutcome.finished ⟨false, none, some "timeout"⟩)
    else
      match t.file with
      | none => pollLoop validate sname outPath rest retriesLeft
      | some raw =>
        match validate raw with
        | Except.ok o =>
          ([DEvent.dbUpdateStep "completed" none],
            DOutcome.finished ⟨true, some o, none⟩)
        | Except.error exc =>
          if retriesLeft = 0 then
            ([DEvent.dbUpdateStep "failed" (some (validationFailMsg exc))],
              DOutcome.finished ⟨false, none, some (validationFailMsg exc)⟩)
          else
            match t.retrySendOk with
            | Except.error emsg => ([DEvent.unlinked], DOutcome.exnRaised emsg)
            | Except.ok _ =>
              let next := pollLoop validate sname outPath rest (retriesLeft - 1)
              (DEvent.unlinked :: DEvent.sent sname (retryPrompt exc outPath) :: next.1,
                next.2)

/-- `dispatch_step`. Tier resolution is abstracted into the `tier` argument
(the routing table lives in the out-of-scope config module); the acquired
session, the `/clear` send and the prompt send are injected as `Except`
results so that every exception path after acquisition is covered. The
`try/finally` structure is explicit: whenever `pool.acquire` succeeded and
the body ends — normally or with an exception — `pool.release` runs exactly
once; if the poll loop is still running past the supplied observations, the
`finally` block has not yet been reached. -/
def dispatch_step (validate : String → Except String α) (tier stepId : String)
    (acquireRes : Except String String) (clearRes sendRes : Except String Unit)
    (inPath outPath : String) (ticks : List DTick) (maxValidationRetries : Nat) :
    List DEvent × DOutcome α :=
  if tier = "python" then ([], DOutcome.exnRaised (pythonTierMsg stepId))
  else
    let pre := [DEvent.dbInsert, DEvent.dbUpdateStep "dispatched" none, DEvent.writeInput]
    match acquireRes with
    | Except.error e => (pre, DOutcome.exnRaised e)
    | Except.ok sname =>
      match clearRes with
      | Except.error e =>
        (pre ++ [DEvent.acquired sname, DEvent.released sname], DOutcome.exnRaised e)
      | Except.ok _ =>
        match sendRes with
        | Except.error e =>
          (pre ++ [DEvent.acquired sname, DEvent.sent sname "/clear",
            DEvent.released sname], DOutcome.exnRaised e)
        | Except.ok _ =>
          let hdr := pre ++ [DEvent.acquired sname, DEvent.sent sname "/clear",
            DEvent.sent sname (buildPrompt inPath outPath)]
          let body := pollLoop validate sname outPath ticks maxValidationRetries
          match body.2 with
          | DOutcome.running => (hdr ++ body.1, DOutcome.running)
          | DOutcome.finished r => (hdr ++ body.1 ++ [DEvent.released sname], DOutcome.finished r)
          | DOutcome.exnRaised msg =>
            (hdr ++ body.1 ++ [DEvent.released sname], DOutcome.exnRaised msg)

/-- Is this event a `pool.release` call? -/
def isReleaseEvent : DEvent → Bool
  | DEvent.released _ => true
  | _ => false

/-- Is this event a `pool.acquire` session acquisition? -/
def isAcquireEvent : DEvent → Bool
  | DEvent.acquired _ => true
  | _ => false

/-- The status of the last step-row database write in a trace, if any. -/
def lastDbStatus (evs : List DEvent) : Option String :=
  (evs.filterMap (fun e => match e with
    | DEvent.dbUpdateStep status _ => some status
    | _ => none)).getLast?

/-! ### PhaseContext construction (`src/conductor/phases.py` / `runner.py`) -/

/-- The fields declared by the `PhaseContext` dataclass, with whether each has
a default value (`phases.py`): `issue_number`, `config`, `pool`, `db`,
`project_root`, `worktree`, and `repo = None`. -/
def phaseContextFields : List (String × Bool) :=
  [("issue_number", false), ("config", false), ("pool", false), ("db", false),
   ("project_root", false), ("worktree", false), ("repo", true)]

/-- The keyword arguments `ConductorRunner._dispatch_issue` passes to the
`PhaseContext` constructor (`runner.py`). -/
def dispatchIssueKwargs : List String :=
  ["issue_number", "config", "pool", "db", "project_root", "worktree", "repo",
   "shutdown_event"]

/-- Python dataclass `__init__` keyword-call semantics: the call succeeds
(no `TypeError`) iff every keyword argument names a declared field and every
field without a default is supplied. -/
def dataclassInitOk (fields : List (String × Bool)) (kwargs : List String) : Bool :=
  kwargs.all (fun k => (fields.map Prod.fst).contains k) &&
  fields.all (fun f => f.2 || kwargs.contains f.1)

/-! ### Concrete instances and trace abbreviations used by the theorems -/

/-- An acyclic two-node graph in which node 2's `blockedBy` list contains the
duplicate entry `[1, 1]` (duplicates are permitted by the data model and are
semantically a set). -/
def gC1 : DAG := ⟨[⟨1, "A", [], "pending"⟩, ⟨2, "B", [1, 1], "pending"⟩]⟩

/-- A graph with a genuine dependency cycle (3 ↔ 4) plus a node with a
duplicated blocker list (`2` blocked by `[1, 1]`). -/
def gC4 : DAG := ⟨[⟨1, "A", [], "pending"⟩, ⟨2, "B", [1, 1], "pending"⟩,
  ⟨3, "C", [4], "pending"⟩, ⟨4, "D", [3], "pending"⟩]⟩

/-- The chain graph of the spec's scheduling example: 2 blocked by 1, 3
blocked by 1 and 2. -/
def gChain : DAG := ⟨[⟨1, "A", [], "pending"⟩, ⟨2, "B", [1], "pending"⟩,
  ⟨3, "C", [1, 2], "pending"⟩]⟩

/-- A poll-loop observation with no cancellation, no timeout, and a
succeeding tmux send for any corrective retry prompt issued this iteration. -/
def okTick (f : Option String) : DTick := ⟨false, false, f, Except.ok ()⟩

/-- The trace segment `dispatch_step` emits for one failed validation with
retries remaining: delete the invalid artifact, then send the corrective
prompt to the session. -/
def retrySegment (sname exc outPath : String) : List DEvent :=
  [DEvent.unlinked, DEvent.sent sname (retryPrompt exc outPath)]

/-- `n` consecutive validation-retry trace segments. -/
def retrySegments (n : Nat) (sname exc outPath : String) : List DEvent :=
  (List.replicate n (retrySegment sname exc outPath)).flatten

/-- The trace prefix `dispatch_step` emits before polling, when acquisition,
context clearing and the prompt send all succeed: step-row creation and
`dispatched` transition, input-artifact write, session acquisition, the
`/clear` send and the task-prompt send. -/
def dispatchHeader (sname inPath outPath : String) : List DEvent :=
  [DEvent.dbInsert, DEvent.dbUpdateStep "dispatched" none, DEvent.writeInput,
   DEvent.acquired sname, DEvent.sent sname "/clear",
   DEvent.sent sname (buildPrompt inPath outPath)]

/-- The behaviour claimed for `dispatch_step` under the validation-retry
protocol, for a validator that rejects `bad` with message `e` and accepts
`good` as `o`: after `n` failed attempts a success returns the parsed output
with the step completed, the artifact deleted and a corrective prompt sent to
the same session before each retry; `budget + 1` failed attempts exhaust the
retries, fail the step row and return a validation-failure error; each failed
attempt with budget left continues polling with the budget decremented; and
the successful run acquires a session exactly once. -/
def DispatchRetrySpec (validate : String → Except String α)
    (tier stepId sname inPath outPath bad good : String) (o : α) (e : String)
    (n budget : Nat) : Prop :=
  (dispatch_step validate tier stepId (Except.ok sname) (Except.ok ()) (Except.ok ())
      inPath outPath (List.replicate n (okTick (some bad)) ++ [okTick (some good)]) budget
    = (dispatchHeader sname inPath outPath ++ retrySegments n sname e outPath ++
        [DEvent.dbUpdateStep "completed" none, DEvent.released sname],
       DOutcome.finished ⟨true, some o, none⟩))
  ∧ (dispatch_step validate tier stepId (Except.ok sname) (Except.ok ()) (Except.ok ())
      inPath outPath (List.replicate (budget + 1) (okTick (some bad))) budget
    = (dispatchHeader sname inPath outPath ++ retrySegments budget sname e outPath ++
        [DEvent.dbUpdateStep "failed" (some (validationFailMsg e)),
         DEvent.released sname],
       DOutcome.finished ⟨false, none, some (validationFailMsg e)⟩))
  ∧ (∀ rest r, pollLoop validate sname outPath (okTick (some bad) :: rest) (r + 1)
      = (retrySegment sname e outPath ++ (pollLoop validate sname outPath rest r).1,
         (pollLoop validate sname outPath rest r).2))
  ∧ ((dispatch_step validate tier stepId (Except.ok sname) (Except.ok ()) (Except.ok ())
      inPath outPath (List.replicate n (okTick (some bad)) ++ [okTick (some good)])
      budget).1.filter isAcquireEvent = [DEvent.acquired sname])

/-! ### Theorems -/

/-- `List.contains` over a type with lawful boolean equality decides
membership. -/
theorem contains_eq_decide_mem {α : Type} [BEq α] [LawfulBEq α] [DecidableEq α]
    (l : List α) (a : α) : l.contains a = decide (a ∈ l) := by
  simp [List.contains, List.elem_eq_mem]

/-- In a graph whose node-number key list is duplicate-free (the Python dict
invariant), looking a member node up by its own number returns that node. -/
theorem find?_number_eq_of_mem : ∀ (l : List DAGNode) (nd : DAGNode),
    (l.map (fun x => x.number)).Nodup → nd ∈ l →
    l.find? (fun x => x.number == nd.number) = some nd := by
  intro l
  induction l with
  | nil => intro nd _ h; cases h
  | cons x xs ih =>
    intro nd hnd hmem
    simp only [List.map_cons, List.nodup_cons] at hnd
    obtain ⟨hx, hxs⟩ := hnd
    rcases List.mem_cons.mp hmem with h | h
    · subst h
      exact List.find?_cons_of_pos _ (by simp)
    · have hne : x.number ≠ nd.number := by
        intro he
        exact hx (he ▸ List.mem_map.mpr ⟨nd, h, rfl⟩)
      rw [List.find?_cons_of_neg _ (by simpa using hne)]
      exact ih nd hxs h

/-- Key-uniqueness form of `DAG.getNode` on a member node. -/
theorem getNode_eq_of_mem (g : DAG) (hWF : g.nodeIds.Nodup) {nd : DAGNode}
    (h : nd ∈ g.entries) : g.getNode nd.number = some nd :=
  find?_number_eq_of_mem g.entries nd hWF h

/-- Membership characterisation of `ready_issues`: exactly the graph nodes
not in the resolved set all of whose `blocked_by` entries — in-graph or not —
lie in the resolved set. -/
theorem mem_ready_issues (g : DAG) (c : List Nat) (hWF : g.nodeIds.Nodup)
    (nd : DAGNode) :
    nd ∈ g.ready_issues c ↔
      nd ∈ g.entries ∧ nd.number ∉ c ∧ ∀ b ∈ nd.blocked_by, b ∈ c := by
  unfold DAG.ready_issues DAG.nodes
  rw [List.mem_filter]
  have hperm := List.perm_insertionSort (fun a b : DAGNode => a.number ≤ b.number) g.entries
  constructor
  · rintro ⟨hmem', hp⟩
    have hent : nd ∈ g.entries := hperm.mem_iff.mp hmem'
    simp only [Bool.and_eq_true, Bool.not_eq_true'] at hp
    obtain ⟨h1, h2⟩ := hp
    refine ⟨hent, ?_, ?_⟩
    · intro hc
      rw [contains_eq_decide_mem] at h1
      simp [hc] at h1
    · intro b hb
      unfold DAG.is_blocked at h2
      rw [getNode_eq_of_mem g hWF hent] at h2
      rw [List.any_eq_false] at h2
      have := h2 b hb
      simp only [Bool.not_eq_true', Bool.not_eq_false] at this
      rw [contains_eq_decide_mem] at this
      simpa using this
  · rintro ⟨hent, hnc, hres⟩
    refine ⟨hperm.mem_iff.mpr hent, ?_⟩
    simp only [Bool.and_eq_true, Bool.not_eq_true']
    constructor
    · rw [contains_eq_decide_mem]
      simpa using hnc
    · unfold DAG.is_blocked
      rw [getNode_eq_of_mem g hWF hent]
      rw [List.any_eq_false]
      intro b hb
      simp only [Bool.not_eq_true', Bool.not_eq_false]
      rw [contains_eq_decide_mem]
      simpa using hres b hb

/-- The graph `gC1` — node 2 blocked by the duplicated list `[1, 1]` — has no
dependency cycle: its only edge runs from 1 to 2. -/
theorem gC1_no_cycle : ¬ HasCycle gC1 := by
  rintro ⟨l, hl⟩
  match l with
  | [] => simp [isCycleWalk] at hl
  | [a] => simp [isCycleWalk] at hl
  | a :: b :: rest =>
    simp only [isCycleWalk, Bool.and_eq_true, decide_eq_true_eq] at hl
    obtain ⟨⟨_, hclosed⟩, hchain⟩ := hl
    simp only [chainEdgesB, Bool.and_eq_true] at hchain
    obtain ⟨hab, hrest⟩ := hchain
    simp only [edgeB, Bool.and_eq_true, decide_eq_true_eq, gC1, DAG.nodeIds,
      DAG.getNode, List.map, List.find?, List.mem_cons] at hab
    obtain ⟨⟨ha, _⟩, hmem⟩ := hab
    rcases ha with ha | ha | ha
    · subst ha; simp at hmem
    · subst ha
      simp at hmem
      subst hmem
      match rest with
      | [] => simp at hclosed
      | c :: rest' =>
        simp only [chainEdgesB, Bool.and_eq_true] at hrest
        obtain ⟨h1c, _⟩ := hrest
        simp [edgeB, gC1, DAG.getNode, List.find?] at h1c
    · simp at ha

/-- Claim C1: for every acyclic graph (duplicate `blockedBy` entries
permitted, semantically a set), `topological_sort` returns a permutation of
the node ids respecting the edges and raises no `CycleError`. The code
violates this: on the acyclic graph `gC1` (node 1 unblocked, node 2 blocked
by `[1, 1]`) the in-degree of node 2 is counted per duplicate entry (2) but
decremented only once per processed distinct dependency, so Kahn's loop ends
with `[1]` and a spurious `CycleError` carrying `[2, 2]` is raised — the
method's own contract ("Raises CycleError on cycles") is broken on a
cycle-free input. -/
theorem c1_topological_sort_rejects_acyclic_duplicate_graph :
    topological_sort gC1 = TopoOutcome.cycleError [2, 2] ∧ ¬ HasCycle gC1 :=
  ⟨by decide, gC1_no_cycle⟩

/-- Claim C4: for every graph containing a cycle, `topological_sort` raises a
`CycleError` whose elements are node ids forming a closed walk along
`blocked_by` edges. The code violates this on `gC4`: the graph has the real
cycle 3 ↔ 4 (conjunct 1), but the duplicate-counting in-degree bug leaves the
non-cycle node 2 in the remaining set with the smallest id, so the extraction
walk starts at 2, immediately falls back to its self-default, and the raised
error carries `[2, 2]` (conjunct 2) — whose elements are node ids
(conjunct 3) but which is not a closed walk, since 2 is not among node 2's
blockers (conjunct 4). -/
theorem c4_cycle_report_not_a_closed_walk :
    isCycleWalk gC4 [3, 4, 3] = true
    ∧ topological_sort gC4 = TopoOutcome.cycleError [2, 2]
    ∧ (∀ x ∈ [2, 2], x ∈ gC4.nodeIds)
    ∧ isCycleWalk gC4 [2, 2] = false := by
  refine ⟨by decide, by decide, by decide, by decide⟩

/-- Claim C5 counterexample: the claim says `blocked_by` entries referencing
numbers outside the graph never block. In the one-node graph whose node 2 is
blocked only by the absent number 99, node 2 has no in-graph blockers, yet
`ready_issues ∅` returns the empty list: `is_blocked` tests every entry
against the resolved set without restricting to in-graph targets. -/
theorem c5_external_blocker_blocks_counterexample :
    DAG.ready_issues ⟨[⟨2, "B", [99], "pending"⟩]⟩ [] = []
    ∧ DAG.getNode ⟨[⟨2, "B", [99], "pending"⟩]⟩ 99 = none
    ∧ DAG.getNode ⟨[⟨2, "B", [99], "pending"⟩]⟩ 2 = some ⟨2, "B", [99], "pending"⟩ := by
  decide

/-- Claim C5 (amended): for every graph with duplicate-free node numbers and
every resolved set, `ready_issues` returns exactly the nodes whose number is
not in the resolved set and *all* of whose `blocked_by` entries — whether or
not they reference nodes of the graph — are in the resolved set, sorted
ascending by issue number; with the empty resolved set it returns exactly the
nodes with an empty `blocked_by` list. -/
theorem c5_ready_issues_spec (g : DAG) (completed : List Nat)
    (hWF : g.nodeIds.Nodup) :
    List.Sorted (fun a b : DAGNode => a.number ≤ b.number) (g.ready_issues completed)
    ∧ (∀ nd : DAGNode, nd ∈ g.ready_issues completed ↔
        nd ∈ g.entries ∧ nd.number ∉ completed ∧ ∀ b ∈ nd.blocked_by, b ∈ completed)
    ∧ (∀ nd : DAGNode, nd ∈ g.ready_issues [] ↔ nd ∈ g.entries ∧ nd.blocked_by = []) := by
  refine ⟨?_, fun nd => mem_ready_issues g completed hWF nd, fun nd => ?_⟩
  · haveI h1 : IsTotal DAGNode (fun a b => a.number ≤ b.number) :=
      ⟨fun a b => Nat.le_total a.number b.number⟩
    haveI h2 : IsTrans DAGNode (fun a b => a.number ≤ b.number) :=
      ⟨fun _ _ _ hab hbc => Nat.le_trans hab hbc⟩
    exact List.Pairwise.filter _
      (List.sorted_insertionSort (fun a b : DAGNode => a.number ≤ b.number) g.entries)
  · rw [mem_ready_issues g [] hWF nd]
    constructor
    · rintro ⟨hent, _, hres⟩
      refine ⟨hent, ?_⟩
      cases hbb : nd.blocked_by with
      | nil => rfl
      | cons b bs =>
        exact absurd (hres b (by rw [hbb]; exact List.mem_cons_self b bs)) (by simp)
    · rintro ⟨hent, hbb⟩
      exact ⟨hent, by simp, by rw [hbb]; intro b hb; cases hb⟩

/-- Witness for `c5_ready_issues_spec` on the spec's chain graph with issue 1
resolved. -/
theorem c5_ready_issues_spec_witness :
    gChain.nodeIds.Nodup
    ∧ (List.Sorted (fun a b : DAGNode => a.number ≤ b.number) (gChain.ready_issues [1])
      ∧ (∀ nd : DAGNode, nd ∈ gChain.ready_issues [1] ↔
          nd ∈ gChain.entries ∧ nd.number ∉ [1] ∧ ∀ b ∈ nd.blocked_by, b ∈ [1])
      ∧ (∀ nd : DAGNode, nd ∈ gChain.ready_issues [] ↔
          nd ∈ gChain.entries ∧ nd.blocked_by = [])) :=
  ⟨by decide, c5_ready_issues_spec gChain [1] (by decide)⟩

/-- `eraseP` by a name that occurs at most once (duplicate-free name list)
removes exactly the sessions bearing that name. -/
theorem eraseP_name_of_nodup (l : List PAgentSession) (n : String)
    (h : (l.map (fun s => s.name)).Nodup) :
    l.eraseP (fun s => decide (s.name = n))
      = l.filter (fun s => !(decide (s.name = n))) := by
  induction l with
  | nil => rfl
  | cons x xs ih =>
    simp only [List.map_cons, List.nodup_cons] at h
    obtain ⟨hx, hxs⟩ := h
    by_cases hxn : x.name = n
    · rw [List.eraseP_cons_of_pos (by simp [hxn])]
      rw [List.filter_cons_of_neg (by simp [hxn])]
      symm
      rw [List.filter_eq_self]
      intro s hs
      simp only [Bool.not_eq_true', decide_eq_false_iff_not]
      intro hsn
      exact hx (by rw [hxn, ← hsn]; exact List.mem_map.mpr ⟨s, hs, rfl⟩)
    · rw [List.eraseP_cons_of_neg (by simp [hxn])]
      rw [List.filter_cons_of_pos (by simp [hxn])]
      rw [ih hxs]

/-- Folding per-name deletion over a name list removes exactly the sessions
whose name is in that list (dictionary-delete semantics on a table with
duplicate-free keys). -/
theorem foldl_eraseP_eq_filter : ∀ (ns : List String) (l : List PAgentSession),
    (l.map (fun s => s.name)).Nodup →
    ns.foldl (fun acc n => acc.eraseP (fun s => decide (s.name = n))) l
      = l.filter (fun s => !(ns.contains s.name)) := by
  intro ns
  induction ns with
  | nil =>
    intro l _
    simp [List.filter_eq_self]
  | cons n ns ih =>
    intro l h
    rw [List.foldl_cons, eraseP_name_of_nodup l n h]
    have hsub : ((l.filter (fun s => !(decide (s.name = n)))).map (fun s => s.name)).Nodup :=
      List.Nodup.sublist ((List.filter_sublist l).map (fun s => s.name)) h
    rw [ih _ hsub, List.filter_filter]
    apply List.filter_congr
    intro s _
    simp only [List.contains_cons, Bool.not_or, Bool.beq_eq_decide_eq]
    rw [Bool.and_comm]

/-- With duplicate-free names, a member session's name occurs among the names
of the filtered table exactly when the session satisfies the filter. -/
theorem names_of_filter_contains (l : List PAgentSession) (p : PAgentSession → Bool)
    (h : (l.map (fun s => s.name)).Nodup) :
    ∀ s ∈ l, ((l.filter p).map (fun s => s.name)).contains s.name = p s := by
  intro s hs
  rw [contains_eq_decide_mem]
  cases hps : p s with
  | true =>
    simp only [decide_eq_true_eq]
    exact List.mem_map.mpr ⟨s, List.mem_filter.mpr ⟨hs, hps⟩, rfl⟩
  | false =>
    simp only [decide_eq_false_iff_not]
    intro hmem
    obtain ⟨s', hs', hname⟩ := List.mem_map.mp hmem
    obtain ⟨hs'l, hps'⟩ := List.mem_filter.mp hs'
    have : s' = s := List.inj_on_of_nodup_map h hs'l hs hname
    rw [this] at hps'
    rw [hps'] at hps
    cases hps

/-- After `drain_idle`, the session table is the original table with exactly
the expired idle sessions removed. -/
theorem drain_idle_sessions_eq (st : PoolState) (now : Int)
    (hWF : (st.sessions.map (fun s => s.name)).Nodup) :
    (drain_idle st now).2.1.sessions
      = st.sessions.filter
          (fun s => !(!s.busy && decide (st.idle_ttl ≤ now - s.last_used))) := by
  unfold drain_idle
  dsimp only
  rw [foldl_eraseP_eq_filter _ _ hWF]
  apply List.filter_congr
  intro s hs
  rw [names_of_filter_contains st.sessions _ hWF s hs]

/-- Claim C6 counterexample: the claim says only sessions whose idle age
*exceeds* `idleTtl` are evicted. With `idleTtl = 60`, a session released at
time 0 and drained at time 60 has age exactly 60 — not exceeding the TTL —
yet the code (whose comparison is `>=`) evicts it and reports count 1. -/
theorem c6_drain_idle_boundary_counterexample :
    let st0 : PoolState := ⟨3, 60, "sonnet-4.5",
      [⟨"conductor-agent-0", "wt", some "sonnet-4.5", false, 0⟩], 1⟩
    (drain_idle st0 60).1 = 1
    ∧ (drain_idle st0 60).2.1.sessions = []
    ∧ (∀ s ∈ st0.sessions, ¬ (60 - s.last_used > st0.idle_ttl)) := by
  decide

/-- Claim C6 (amended): `drain_idle` evicts (kills the backend of and removes
from the table) exactly those sessions that are idle and whose `last_used`
age is at least `idleTtl` — the comparison is `>=`, so age exactly equal to
the TTL is evicted; an idle session strictly under the TTL is kept, a busy
session is never evicted regardless of age, and the returned count equals the
number of sessions evicted. -/
theorem c6_drain_idle_spec (st : PoolState) (now : Int)
    (hWF : (st.sessions.map (fun s => s.name)).Nodup) :
    (drain_idle st now).1
      = (st.sessions.filter (fun s => !s.busy && decide (st.idle_ttl ≤ now - s.last_used))).length
    ∧ (drain_idle st now).2.1.sessions
      = st.sessions.filter (fun s => !(!s.busy && decide (st.idle_ttl ≤ now - s.last_used)))
    ∧ (∀ s ∈ st.sessions, s.busy = true → s ∈ (drain_idle st now).2.1.sessions)
    ∧ (∀ s ∈ st.sessions, s.busy = false → st.idle_ttl ≤ now - s.last_used →
        s ∉ (drain_idle st now).2.1.sessions)
    ∧ (∀ s ∈ st.sessions, s.busy = false → now - s.last_used < st.idle_ttl →
        s ∈ (drain_idle st now).2.1.sessions)
    ∧ (drain_idle st now).2.2
      = (st.sessions.filter (fun s => !s.busy && decide (st.idle_ttl ≤ now - s.last_used))).map
          (fun s => PoolEvent.killBackend s.name) := by
  have hcore := drain_idle_sessions_eq st now hWF
  refine ⟨?_, hcore, ?_, ?_, ?_, ?_⟩
  · simp [drain_idle]
  · intro s hs hbusy
    rw [hcore]
    exact List.mem_filter.mpr ⟨hs, by simp [hbusy]⟩
  · intro s hs hidle hage
    rw [hcore]
    intro hmem
    have := (List.mem_filter.mp hmem).2
    simp [hidle, hage] at this
  · intro s hs hidle hage
    rw [hcore]
    refine List.mem_filter.mpr ⟨hs, ?_⟩
    simp [hidle]
    omega
  · simp [drain_idle, List.map_map]

/-- Witness for `c6_drain_idle_spec`: a pool holding one busy and one idle
session, drained at time 100 with TTL 60. -/
theorem c6_drain_idle_spec_witness :
    ((([⟨"conductor-agent-0", "wt", some "m", true, 90⟩,
        ⟨"conductor-agent-1", "wt", some "m", false, 10⟩] : List PAgentSession).map
          (fun s => s.name)).Nodup)
    ∧ ((drain_idle ⟨2, 60, "m", [⟨"conductor-agent-0", "wt", some "m", true, 90⟩,
          ⟨"conductor-agent-1", "wt", some "m", false, 10⟩], 2⟩ 100).1
        = (([⟨"conductor-agent-0", "wt", some "m", true, 90⟩,
            ⟨"conductor-agent-1", "wt", some "m", false, 10⟩] : List PAgentSession).filter
            (fun s => !s.busy && decide ((60 : Int) ≤ 100 - s.last_used))).length
      ∧ (drain_idle ⟨2, 60, "m", [⟨"conductor-agent-0", "wt", some "m", true, 90⟩,
          ⟨"conductor-agent-1", "wt", some "m", false, 10⟩], 2⟩ 100).2.1.sessions
        = ([⟨"conductor-agent-0", "wt", some "m", true, 90⟩,
            ⟨"conductor-agent-1", "wt", some "m", false, 10⟩] : List PAgentSession).filter
            (fun s => !(!s.busy && decide ((60 : Int) ≤ 100 - s.last_used)))
      ∧ (∀ s ∈ ([⟨"conductor-agent-0", "wt", some "m", true, 90⟩,
            ⟨"conductor-agent-1", "wt", some "m", false, 10⟩] : List PAgentSession),
          s.busy = true →
          s ∈ (drain_idle ⟨2, 60, "m", [⟨"conductor-agent-0", "wt", some "m", true, 90⟩,
            ⟨"conductor-agent-1", "wt", some "m", false, 10⟩], 2⟩ 100).2.1.sessions)
      ∧ (∀ s ∈ ([⟨"conductor-agent-0", "wt", some "m", true, 90⟩,
            ⟨"conductor-agent-1", "wt", some "m", false, 10⟩] : List PAgentSession),
          s.busy = false → (60 : Int) ≤ 100 - s.last_used →
          s ∉ (drain_idle ⟨2, 60, "m", [⟨"conductor-agent-0", "wt", some "m", true, 90⟩,
            ⟨"conductor-agent-1", "wt", some "m", false, 10⟩], 2⟩ 100).2.1.sessions)
      ∧ (∀ s ∈ ([⟨"conductor-agent-0", "wt", some "m", true, 90⟩,
            ⟨"conductor-agent-1", "wt", some "m", false, 10⟩] : List PAgentSession),
          s.busy = false → 100 - s.last_used < (60 : Int) →
          s ∈ (drain_idle ⟨2, 60, "m", [⟨"conductor-agent-0", "wt", some "m", true, 90⟩,
            ⟨"conductor-agent-1", "wt", some "m", false, 10⟩], 2⟩ 100).2.1.sessions)
      ∧ (drain_idle ⟨2, 60, "m", [⟨"conductor-agent-0", "wt", some "m", true, 90⟩,
          ⟨"conductor-agent-1", "wt", some "m", false, 10⟩], 2⟩ 100).2.2
        = (([⟨"conductor-agent-0", "wt", some "m", true, 90⟩,
            ⟨"conductor-agent-1", "wt", some "m", false, 10⟩] : List PAgentSession).filter
            (fun s => !s.busy && decide ((60 : Int) ≤ 100 - s.last_used))).map
            (fun s => PoolEvent.killBackend s.name)) :=
  ⟨by decide,
   c6_drain_idle_spec ⟨2, 60, "m", [⟨"conductor-agent-0", "wt", some "m", true, 90⟩,
     ⟨"conductor-agent-1", "wt", some "m", false, 10⟩], 2⟩ 100 (by decide)⟩

/-- `AgentPool.acquire` fails with the capacity `RuntimeError` when every
session of a full table is busy. -/
theorem acquire_capacity (st : PoolState) (w : String) (m : Option String) (now : Int)
    (hBusy : ∀ s ∈ st.sessions, s.busy = true)
    (hLen : st.sessions.length = st.max_sessions) :
    acquire st w m now = Except.error (capacityMsg st.max_sessions) := by
  have hfind : st.sessions.find? (fun s => !s.busy) = none :=
    List.find?_eq_none.mpr (fun x hx => by simp [hBusy x hx])
  unfold acquire
  rw [hfind]
  rw [hLen]
  simp

/-- Reassigning a session in place never changes the table's name list. -/
theorem listUpdateSession_names (l : List PAgentSession) (s' : PAgentSession) :
    (listUpdateSession l s').map (fun s => s.name) = l.map (fun s => s.name) := by
  unfold listUpdateSession
  rw [List.map_map]
  apply List.map_congr_left
  intro s _
  by_cases h : s.name = s'.name
  · simp [h]
  · simp [h]

/-- When an idle session exists, `acquire` reuses the first one: the returned
session keeps its name, is busy, carries the requested worktree, the table's
names and the name counter are unchanged, and the side effects are exactly
one model switch when the idle session's configured model differs from the
requested (or default) model, else none. -/
theorem acquire_reuse (st : PoolState) (w : String) (m : Option String) (now : Int)
    (s₀ : PAgentSession)
    (hfind : st.sessions.find? (fun s => !s.busy) = some s₀) :
    ∃ s' st' ev, acquire st w m now = Except.ok (s', st', ev)
      ∧ s'.name = s₀.name ∧ s'.busy = true ∧ s'.worktree = w
      ∧ st'.sessions.map (fun s => s.name) = st.sessions.map (fun s => s.name)
      ∧ st'.next_id = st.next_id
      ∧ ev = (if s₀.model = some (m.getD st.default_model) then []
          else [PoolEvent.send s₀.name ("/model " ++ m.getD st.default_model)]) := by
  unfold acquire
  rw [hfind]
  dsimp only
  by_cases h : s₀.model = some (m.getD st.default_model)
  · rw [if_pos h, if_pos h]
    exact ⟨_, _, _, rfl, rfl, rfl, rfl, listUpdateSession_names _ _, rfl, rfl⟩
  · rw [if_neg h, if_neg h]
    exact ⟨_, _, _, rfl, rfl, rfl, rfl, listUpdateSession_names _ _, rfl, rfl⟩

/-- Releasing a named session of an all-busy table leaves exactly that
session as the first idle entry found by `acquire`'s scan. -/
theorem find_idle_after_release (l : List PAgentSession) (name : String) (now₁ : Int)
    (hBusy : ∀ s ∈ l, s.busy = true) (hmem : name ∈ l.map (fun s => s.name)) :
    ∃ s₀, s₀ ∈ l ∧ s₀.name = name ∧
      (l.map (fun s => if s.name = name then { s with busy := false, last_used := now₁ } else s)).find?
        (fun s => !s.busy) = some { s₀ with busy := false, last_used := now₁ } := by
  induction l with
  | nil => cases hmem
  | cons x xs ih =>
    by_cases hx : x.name = name
    · refine ⟨x, List.mem_cons_self x xs, hx, ?_⟩
      rw [List.map_cons, if_pos hx]
      exact List.find?_cons_of_pos _ (by simp)
    · have hmem' : name ∈ xs.map (fun s => s.name) := by
        rcases List.mem_cons.mp hmem with h | h
        · exact absurd h.symm hx
        · exact h
      obtain ⟨s₀, hs₀, hn, hfind⟩ := ih (fun s hs => hBusy s (List.mem_cons_of_mem x hs)) hmem'
      refine ⟨s₀, List.mem_cons_of_mem x hs₀, hn, ?_⟩
      rw [List.map_cons, if_neg hx]
      rw [List.find?_cons_of_neg _ (by simp [hBusy x (List.mem_cons_self x xs)])]
      exact hfind

/-- Claim C3: with all `maxSessions` sessions present and busy, `acquire`
fails with the capacity error; with an idle session present it reuses that
session (no new session is created, the table's names are unchanged) and
performs exactly one model-switch side effect iff the reused session's
configured model differs from the requested model, handing the session back
busy; and after releasing a session of an all-busy pool, reacquiring returns
a session with the same name. -/
theorem c3_pool_acquire_spec (st : PoolState) (w : String) (m : Option String) (now : Int) :
    (st.sessions.length = st.max_sessions → (∀ s ∈ st.sessions, s.busy = true) →
      acquire st w m now = Except.error (capacityMsg st.max_sessions))
    ∧ (∀ s₀, st.sessions.find? (fun s => !s.busy) = some s₀ →
        ∃ s' st' ev, acquire st w m now = Except.ok (s', st', ev)
          ∧ s'.name = s₀.name ∧ s'.busy = true ∧ s'.worktree = w
          ∧ st'.sessions.map (fun s => s.name) = st.sessions.map (fun s => s.name)
          ∧ st'.next_id = st.next_id
          ∧ ev = (if s₀.model = some (m.getD st.default_model) then []
              else [PoolEvent.send s₀.name ("/model " ++ m.getD st.default_model)]))
    ∧ (∀ name now₁, (∀ s ∈ st.sessions, s.busy = true) →
        name ∈ st.sessions.map (fun s => s.name) →
        ∃ s' st' ev, acquire (release st name now₁) w m now = Except.ok (s', st', ev)
          ∧ s'.name = name) := by
  refine ⟨fun hLen hBusy => acquire_capacity st w m now hBusy hLen,
    fun s₀ hfind => acquire_reuse st w m now s₀ hfind,
    fun name now₁ hBusy hmem => ?_⟩
  obtain ⟨s₀, hs₀, hn, hfind⟩ := find_idle_after_release st.sessions name now₁ hBusy hmem
  obtain ⟨s', st', ev, heq, hname, _⟩ :=
    acquire_reuse (release st name now₁) w m now _ hfind
  exact ⟨s', st', ev, heq, hname.trans hn⟩

/-- Witness instantiation of `c3_pool_acquire_spec` on a one-session pool
with a different requested model. -/
theorem c3_pool_acquire_spec_witness :
    ((⟨2, 60, "sonnet-4.5", [⟨"conductor-agent-0", "wt", some "sonnet-4.5", false, 0⟩],
        1⟩ : PoolState).sessions.length
        = (⟨2, 60, "sonnet-4.5", [⟨"conductor-agent-0", "wt", some "sonnet-4.5", false, 0⟩],
        1⟩ : PoolState).max_sessions →
      (∀ s ∈ (⟨2, 60, "sonnet-4.5",
          [⟨"conductor-agent-0", "wt", some "sonnet-4.5", false, 0⟩], 1⟩ : PoolState).sessions,
        s.busy = true) →
      acquire ⟨2, 60, "sonnet-4.5", [⟨"conductor-agent-0", "wt", some "sonnet-4.5", false, 0⟩], 1⟩
          "wt2" (some "opus-4.6") 7
        = Except.error (capacityMsg (⟨2, 60, "sonnet-4.5",
            [⟨"conductor-agent-0", "wt", some "sonnet-4.5", false, 0⟩], 1⟩ : PoolState).max_sessions))
    ∧ (∀ s₀, (⟨2, 60, "sonnet-4.5", [⟨"conductor-agent-0", "wt", some "sonnet-4.5", false, 0⟩],
          1⟩ : PoolState).sessions.find? (fun s => !s.busy) = some s₀ →
        ∃ s' st' ev, acquire ⟨2, 60, "sonnet-4.5",
            [⟨"conductor-agent-0", "wt", some "sonnet-4.5", false, 0⟩], 1⟩ "wt2" (some "opus-4.6") 7
            = Except.ok (s', st', ev)
          ∧ s'.name = s₀.name ∧ s'.busy = true ∧ s'.worktree = "wt2"
          ∧ st'.sessions.map (fun s => s.name)
            = (⟨2, 60, "sonnet-4.5", [⟨"conductor-agent-0", "wt", some "sonnet-4.5", false, 0⟩],
                1⟩ : PoolState).sessions.map (fun s => s.name)
          ∧ st'.next_id = (⟨2, 60, "sonnet-4.5",
              [⟨"conductor-agent-0", "wt", some "sonnet-4.5", false, 0⟩], 1⟩ : PoolState).next_id
          ∧ ev = (if s₀.model = some ((some "opus-4.6").getD (⟨2, 60, "sonnet-4.5",
                [⟨"conductor-agent-0", "wt", some "sonnet-4.5", false, 0⟩],
                1⟩ : PoolState).default_model) then []
              else [PoolEvent.send s₀.name ("/model " ++ (some "opus-4.6").getD (⟨2, 60, "sonnet-4.5",
                [⟨"conductor-agent-0", "wt", some "sonnet-4.5", false, 0⟩],
                1⟩ : PoolState).default_model)]))
    ∧ (∀ name now₁, (∀ s ∈ (⟨2, 60, "sonnet-4.5",
          [⟨"conductor-agent-0", "wt", some "sonnet-4.5", false, 0⟩], 1⟩ : PoolState).sessions,
          s.busy = true) →
        name ∈ (⟨2, 60, "sonnet-4.5", [⟨"conductor-agent-0", "wt", some "sonnet-4.5", false, 0⟩],
            1⟩ : PoolState).sessions.map (fun s => s.name) →
        ∃ s' st' ev, acquire (release ⟨2, 60, "sonnet-4.5",
            [⟨"conductor-agent-0", "wt", some "sonnet-4.5", false, 0⟩], 1⟩ name now₁)
            "wt2" (some "opus-4.6") 7 = Except.ok (s', st', ev)
          ∧ s'.name = name) :=
  c3_pool_acquire_spec
    ⟨2, 60, "sonnet-4.5", [⟨"conductor-agent-0", "wt", some "sonnet-4.5", false, 0⟩], 1⟩
    "wt2" (some "opus-4.6") 7

/-- Claim C7: the claim states that every table name corresponds to exactly
one live backend and that this invariant is preserved by every operation,
including `recover`. The code violates it: in a two-slot pool holding one
busy session (name `conductor-agent-0`, one live backend), `recover` with
nudges exhausted kills that session's backend via `pool._kill_session` —
which does not touch the session table — and then acquires a brand-new
session. Afterwards `conductor-agent-0` is still in the table (still busy,
still counted against capacity) but has zero live backend processes. -/
theorem c7_recover_breaks_backend_invariant :
    let st0 : PoolState := ⟨2, 60, "sonnet-4.5",
      [⟨"conductor-agent-0", "wt", some "sonnet-4.5", true, 0⟩], 1⟩
    let out := recover st0 ["conductor-agent-0"]
      ⟨"conductor-agent-0", "wt", some "sonnet-4.5", true, 0⟩ 2 0 2 1 "task" 5
    out.result = RecoverResult.retried "conductor-agent-1" 1
    ∧ out.pool.sessions.map (fun s => s.name) = ["conductor-agent-0", "conductor-agent-1"]
    ∧ out.backend = ["conductor-agent-1"]
    ∧ out.backend.count "conductor-agent-0" = 0
    ∧ (∀ s ∈ out.pool.sessions, s.busy = true) := by
  decide

/-- Projection of the no-cancellation tick. -/
theorem okTick_shutdownSet (f : Option String) : (okTick f).shutdownSet = false := rfl

/-- Projection of the no-timeout tick. -/
theorem okTick_timedOut (f : Option String) : (okTick f).timedOut = false := rfl

/-- Projection of the tick's artifact content. -/
theorem okTick_file (f : Option String) : (okTick f).file = f := rfl

/-- Projection of the tick's retry-send result. -/
theorem okTick_retrySendOk (f : Option String) : (okTick f).retrySendOk = Except.ok () := rfl

/-- The poll loop emits only step-row updates, artifact deletions and tmux
sends: filtering its trace by any predicate false on those yields nothing. -/
theorem pollLoop_filter_eq {α : Type} (validate : String → Except String α)
    (sname outPath : String) (p : DEvent → Bool)
    (hdb : ∀ s err, p (DEvent.dbUpdateStep s err) = false)
    (hunl : p DEvent.unlinked = false)
    (hsent : ∀ n t, p (DEvent.sent n t) = false) :
    ∀ (ticks : List DTick) (r : Nat),
      (pollLoop validate sname outPath ticks r).1.filter p = [] := by
  intro ticks
  induction ticks with
  | nil => intro r; simp [pollLoop]
  | cons t rest ih =>
    intro r
    simp only [pollLoop]
    split
    · simp [hdb]
    · split
      · simp [hdb]
      · split
        · exact ih r
        · split
          · simp [hdb]
          · split
            · simp [hdb]
            · split
              · simp [hunl]
              · simp [hunl, hsent, ih]

/-- One poll iteration over an invalid artifact with budget left: delete the
artifact, send the corrective prompt to the same session, and continue
polling with the budget decremented. -/
theorem pollLoop_bad_step {α : Type} (validate : String → Except String α)
    (sname outPath bad e : String)
    (hbad : validate bad = Except.error e) (rest : List DTick) (r : Nat) :
    pollLoop validate sname outPath (okTick (some bad) :: rest) (r + 1)
      = (retrySegment sname e outPath ++ (pollLoop validate sname outPath rest r).1,
         (pollLoop validate sname outPath rest r).2) := by
  simp only [pollLoop, okTick_shutdownSet, okTick_timedOut, okTick_file, okTick_retrySendOk]
  rw [hbad]
  simp [retrySegment]

/-- A poll iteration over a valid artifact completes the step row and returns
the parsed output, whatever budget remains. -/
theorem pollLoop_good_final {α : Type} (validate : String → Except String α)
    (sname outPath good : String) (o : α)
    (hgood : validate good = Except.ok o) (r : Nat) :
    pollLoop validate sname outPath [okTick (some good)] r
      = ([DEvent.dbUpdateStep "completed" none],
         DOutcome.finished ⟨true, some o, none⟩) := by
  simp only [pollLoop, okTick_shutdownSet, okTick_timedOut, okTick_file]
  rw [hgood]
  simp

/-- The poll loop over `N` invalid artifacts followed by a valid one, with
budget at least `N`: `N` retry segments, then completion with the parsed
output. -/
theorem pollLoop_succeeds_after_failures {α : Type} (validate : String → Except String α)
    (sname outPath bad good e : String) (o : α)
    (hbad : validate bad = Except.error e) (hgood : validate good = Except.ok o) :
    ∀ (N r : Nat), N ≤ r →
    pollLoop validate sname outPath
        (List.replicate N (okTick (some bad)) ++ [okTick (some good)]) r
      = (retrySegments N sname e outPath ++ [DEvent.dbUpdateStep "completed" none],
         DOutcome.finished ⟨true, some o, none⟩) := by
  intro N
  induction N with
  | zero =>
    intro r _
    rw [List.replicate_zero, List.nil_append, pollLoop_good_final validate sname outPath good o hgood]
    simp [retrySegments]
  | succ n ih =>
    intro r hle
    obtain ⟨r', rfl⟩ : ∃ r', r = r' + 1 := ⟨r - 1, by omega⟩
    rw [List.replicate_succ, List.cons_append,
      pollLoop_bad_step validate sname outPath bad e hbad _ r',
      ih r' (by omega)]
    simp [retrySegments, List.replicate_succ, retrySegment]

/-- The poll loop over `budget + 1` invalid artifacts: `budget` retry
segments, then the step row is failed with the validation-exhaustion message
and a failure result is returned. -/
theorem pollLoop_exhausts {α : Type} (validate : String → Except String α)
    (sname outPath bad e : String)
    (hbad : validate bad = Except.error e) :
    ∀ (r : Nat),
    pollLoop validate sname outPath (List.replicate (r + 1) (okTick (some bad))) r
      = (retrySegments r sname e outPath ++
          [DEvent.dbUpdateStep "failed" (some (validationFailMsg e))],
         DOutcome.finished ⟨false, none, some (validationFailMsg e)⟩) := by
  intro r
  induction r with
  | zero =>
    simp only [List.replicate_succ, List.replicate_zero, pollLoop,
      okTick_shutdownSet, okTick_timedOut, okTick_file]
    rw [hbad]
    simp [retrySegments]
  | succ n ih =>
    rw [List.replicate_succ, pollLoop_bad_step validate sname outPath bad e hbad _ n, ih]
    simp [retrySegments, List.replicate_succ, retrySegment]

/-- When acquisition, context clear and the prompt send succeed and the poll
loop terminates, `dispatch_step`'s trace is the header, the loop's events,
and the single `finally`-block release, with the loop's outcome. -/
theorem dispatch_step_ok_trace {α : Type} (validate : String → Except String α)
    (tier stepId sname inPath outPath : String) (ticks : List DTick) (budget : Nat)
    (hTier : tier ≠ "python")
    (hrun : (pollLoop validate sname outPath ticks budget).2 ≠ DOutcome.running) :
    dispatch_step validate tier stepId (Except.ok sname) (Except.ok ()) (Except.ok ())
        inPath outPath ticks budget
      = (dispatchHeader sname inPath outPath
          ++ (pollLoop validate sname outPath ticks budget).1 ++ [DEvent.released sname],
         (pollLoop validate sname outPath ticks budget).2) := by
  unfold dispatch_step
  rw [if_neg hTier]
  dsimp only
  rcases hout : (pollLoop validate sname outPath ticks budget).2 with r | msg | _
  · rfl
  · rfl
  · exact absurd hout hrun

/-- Retry segments contain no session acquisition. -/
theorem retrySegments_filter_acquire (n : Nat) (sname e outPath : String) :
    (retrySegments n sname e outPath).filter isAcquireEvent = [] := by
  induction n with
  | zero => rfl
  | succ k ih =>
    rw [retrySegments, List.replicate_succ, List.flatten_cons, List.filter_append]
    rw [retrySegments] at ih
    rw [ih]
    rfl

/-- Claim C2: for a dispatch with validation-retry budget `R`, an output
artifact that validates after `N < R` failed attempts yields success carrying
the parsed output (step row `completed`); failed validation on every attempt
up to and including the budget yields failure with the
"Validation failed after retries" message and the step row `failed`; before
each retry the invalid artifact is deleted, the budget decremented and a
corrective message sent to the same already-acquired session; and the
successful run performs exactly one session acquisition. -/
theorem c2_dispatch_validation_retry {α : Type} (validate : String → Except String α)
    (tier stepId sname inPath outPath bad good e : String) (o : α) (N R : Nat)
    (hTier : tier ≠ "python")
    (hbad : validate bad = Except.error e)
    (hgood : validate good = Except.ok o)
    (hNR : N < R) :
    DispatchRetrySpec validate tier stepId sname inPath outPath bad good o e N R := by
  have hsucc := pollLoop_succeeds_after_failures validate sname outPath bad good e o
    hbad hgood N R (Nat.le_of_lt hNR)
  have hexh := pollLoop_exhausts validate sname outPath bad e hbad R
  refine ⟨?_, ?_, fun rest r => pollLoop_bad_step validate sname outPath bad e hbad rest r, ?_⟩
  · rw [dispatch_step_ok_trace validate tier stepId sname inPath outPath _ R hTier
      (by rw [hsucc]; simp)]
    rw [hsucc]
    simp
  · rw [dispatch_step_ok_trace validate tier stepId sname inPath outPath _ R hTier
      (by rw [hexh]; simp)]
    rw [hexh]
    simp
  · rw [dispatch_step_ok_trace validate tier stepId sname inPath outPath _ R hTier
      (by rw [hsucc]; simp)]
    rw [hsucc]
    simp [List.filter_append, dispatchHeader, isAcquireEvent,
      retrySegments_filter_acquire]

/-- Witness for `c2_dispatch_validation_retry`: one failed attempt, budget 2,
then a valid artifact parsed as `7`. -/
theorem c2_dispatch_validation_retry_witness :
    (("standard" : String) ≠ "python"
      ∧ (fun s => if s = "G" then Except.ok (7 : Nat) else Except.error "boom") "B"
          = Except.error "boom"
      ∧ (fun s => if s = "G" then Except.ok (7 : Nat) else Except.error "boom") "G"
          = Except.ok 7
      ∧ 1 < 2)
    ∧ DispatchRetrySpec (fun s => if s = "G" then Except.ok (7 : Nat) else Except.error "boom")
        "standard" "3.2" "conductor-agent-0" "in.json" "out.json" "B" "G" 7 "boom" 1 2 :=
  ⟨⟨by decide, rfl, rfl, by decide⟩,
   c2_dispatch_validation_retry (fun s => if s = "G" then Except.ok (7 : Nat) else Except.error "boom")
     "standard" "3.2" "conductor-agent-0" "in.json" "out.json" "B" "G" "boom" 7 1 2
     (by decide) rfl rfl (by decide)⟩

/-- An exception from `pool.clear_context` after acquisition still releases
the session exactly once and propagates the exception. -/
theorem dispatch_step_clear_err {α : Type} (validate : String → Except String α)
    (tier stepId sname inPath outPath : String) (e : String)
    (sendRes : Except String Unit) (ticks : List DTick) (budget : Nat)
    (hTier : tier ≠ "python") :
    dispatch_step validate tier stepId (Except.ok sname) (Except.error e) sendRes
        inPath outPath ticks budget
      = ([DEvent.dbInsert, DEvent.dbUpdateStep "dispatched" none, DEvent.writeInput,
          DEvent.acquired sname, DEvent.released sname], DOutcome.exnRaised e) := by
  unfold dispatch_step
  rw [if_neg hTier]
  rfl

/-- An exception from the prompt send after acquisition still releases the
session exactly once and propagates the exception. -/
theorem dispatch_step_send_err {α : Type} (validate : String → Except String α)
    (tier stepId sname inPath outPath : String) (e : String)
    (ticks : List DTick) (budget : Nat)
    (hTier : tier ≠ "python") :
    dispatch_step validate tier stepId (Except.ok sname) (Except.ok ()) (Except.error e)
        inPath outPath ticks budget
      = ([DEvent.dbInsert, DEvent.dbUpdateStep "dispatched" none, DEvent.writeInput,
          DEvent.acquired sname, DEvent.sent sname "/clear", DEvent.released sname],
         DOutcome.exnRaised e) := by
  unfold dispatch_step
  rw [if_neg hTier]
  rfl

/-- If the poll loop has not terminated within the supplied observations,
`dispatch_step` is still inside the `try` body. -/
theorem dispatch_step_still_running {α : Type} (validate : String → Except String α)
    (tier stepId sname inPath outPath : String) (ticks : List DTick) (budget : Nat)
    (hTier : tier ≠ "python")
    (hout : (pollLoop validate sname outPath ticks budget).2 = DOutcome.running) :
    (dispatch_step validate tier stepId (Except.ok sname) (Except.ok ()) (Except.ok ())
        inPath outPath ticks budget).2 = DOutcome.running := by
  unfold dispatch_step
  rw [if_neg hTier]
  dsimp only
  rw [hout]

/-- Claim C8: in every terminating execution of `dispatch_step` in which a
session is acquired — validation success, timeout, cancellation,
validation-retry exhaustion, or an exception raised after acquisition (a
failing context clear, prompt send or corrective retry send) — the trace
contains exactly one `pool.release`, of that session: released exactly once,
never twice, never left busy. -/
theorem c8_session_released_exactly_once {α : Type} (validate : String → Except String α)
    (tier stepId sname inPath outPath : String)
    (clearRes sendRes : Except String Unit) (ticks : List DTick) (budget : Nat)
    (hTier : tier ≠ "python")
    (hTerm : (dispatch_step validate tier stepId (Except.ok sname) clearRes sendRes
        inPath outPath ticks budget).2 ≠ DOutcome.running) :
    (dispatch_step validate tier stepId (Except.ok sname) clearRes sendRes
        inPath outPath ticks budget).1.filter isReleaseEvent = [DEvent.released sname] := by
  have hpoll := pollLoop_filter_eq validate sname outPath isReleaseEvent
    (fun s err => rfl) rfl (fun n t => rfl) ticks budget
  rcases clearRes with e | u
  · rw [dispatch_step_clear_err validate tier stepId sname inPath outPath e sendRes
      ticks budget hTier]
    rfl
  · cases u
    rcases sendRes with e | u2
    · rw [dispatch_step_send_err validate tier stepId sname inPath outPath e
        ticks budget hTier]
      rfl
    · cases u2
      rcases hout : (pollLoop validate sname outPath ticks budget).2 with r | msg | _
      · rw [dispatch_step_ok_trace validate tier stepId sname inPath outPath ticks budget
          hTier (by rw [hout]; simp)]
        simp [List.filter_append, dispatchHeader, isReleaseEvent, hpoll]
      · rw [dispatch_step_ok_trace validate tier stepId sname inPath outPath ticks budget
          hTier (by rw [hout]; simp)]
        simp [List.filter_append, dispatchHeader, isReleaseEvent, hpoll]
      · exact absurd (dispatch_step_still_running validate tier stepId sname inPath outPath
          ticks budget hTier hout) hTerm

/-- Witness for `c8_session_released_exactly_once`: an immediately valid
artifact. -/
theorem c8_session_released_exactly_once_witness :
    (("standard" : String) ≠ "python"
      ∧ (dispatch_step (fun s => if s = "G" then Except.ok (7 : Nat) else Except.error "boom")
          "standard" "3.2" (Except.ok "conductor-agent-0") (Except.ok ()) (Except.ok ())
          "in.json" "out.json" [okTick (some "G")] 2).2 ≠ DOutcome.running)
    ∧ (dispatch_step (fun s => if s = "G" then Except.ok (7 : Nat) else Except.error "boom")
        "standard" "3.2" (Except.ok "conductor-agent-0") (Except.ok ()) (Except.ok ())
        "in.json" "out.json" [okTick (some "G")] 2).1.filter isReleaseEvent
      = [DEvent.released "conductor-agent-0"] :=
  ⟨⟨by decide, by decide⟩,
   c8_session_released_exactly_once (fun s => if s = "G" then Except.ok (7 : Nat) else Except.error "boom")
     "standard" "3.2" "conductor-agent-0" "in.json" "out.json"
     (Except.ok ()) (Except.ok ()) [okTick (some "G")] 2 (by decide) (by decide)⟩

/-- Claim C10: when the pool is at capacity with every session busy,
`acquire` raises the capacity `RuntimeError`; if `dispatch_step` receives
that exception from its `pool.acquire` call, the exception propagates (no
`StepResult` is returned), the step row persisted before acquisition remains
in status `dispatched` — never finalised — and no release happens. -/
theorem c10_capacity_error_propagates {α : Type} (validate : String → Except String α)
    (tier stepId inPath outPath : String) (clearRes sendRes : Except String Unit)
    (ticks : List DTick) (budget : Nat)
    (st : PoolState) (w : String) (m : Option String) (now : Int)
    (hTier : tier ≠ "python")
    (hBusy : ∀ s ∈ st.sessions, s.busy = true)
    (hLen : st.sessions.length = st.max_sessions) :
    acquire st w m now = Except.error (capacityMsg st.max_sessions)
    ∧ dispatch_step validate tier stepId (Except.error (capacityMsg st.max_sessions))
        clearRes sendRes inPath outPath ticks budget
      = ([DEvent.dbInsert, DEvent.dbUpdateStep "dispatched" none, DEvent.writeInput],
         DOutcome.exnRaised (capacityMsg st.max_sessions))
    ∧ lastDbStatus (dispatch_step validate tier stepId
        (Except.error (capacityMsg st.max_sessions))
        clearRes sendRes inPath outPath ticks budget).1 = some "dispatched"
    ∧ (dispatch_step validate tier stepId (Except.error (capacityMsg st.max_sessions))
        clearRes sendRes inPath outPath ticks budget).1.filter isReleaseEvent = [] := by
  have h2 : dispatch_step validate tier stepId
      (Except.error (capacityMsg st.max_sessions)) clearRes sendRes inPath outPath
      ticks budget
      = ([DEvent.dbInsert, DEvent.dbUpdateStep "dispatched" none, DEvent.writeInput],
         DOutcome.exnRaised (capacityMsg st.max_sessions)) := by
    unfold dispatch_step
    rw [if_neg hTier]
  refine ⟨acquire_capacity st w m now hBusy hLen, h2, ?_, ?_⟩
  · rw [h2]
    rfl
  · rw [h2]
    rfl

/-- Witness for `c10_capacity_error_propagates`: a one-slot pool whose only
session is busy. -/
theorem c10_capacity_error_propagates_witness :
    (("standard" : String) ≠ "python"
      ∧ (∀ s ∈ (⟨1, 60, "m", [⟨"conductor-agent-0", "wt", some "m", true, 0⟩],
          1⟩ : PoolState).sessions, s.busy = true)
      ∧ (⟨1, 60, "m", [⟨"conductor-agent-0", "wt", some "m", true, 0⟩],
          1⟩ : PoolState).sessions.length
        = (⟨1, 60, "m", [⟨"conductor-agent-0", "wt", some "m", true, 0⟩],
          1⟩ : PoolState).max_sessions)
    ∧ (acquire ⟨1, 60, "m", [⟨"conductor-agent-0", "wt", some "m", true, 0⟩], 1⟩
          "wt2" none 9
        = Except.error (capacityMsg (⟨1, 60, "m",
            [⟨"conductor-agent-0", "wt", some "m", true, 0⟩], 1⟩ : PoolState).max_sessions)
      ∧ dispatch_step (fun s => if s = "G" then Except.ok (7 : Nat) else Except.error "boom")
          "standard" "3.2"
          (Except.error (capacityMsg (⟨1, 60, "m",
            [⟨"conductor-agent-0", "wt", some "m", true, 0⟩], 1⟩ : PoolState).max_sessions))
          (Except.ok ()) (Except.ok ()) "in.json" "out.json" [] 2
        = ([DEvent.dbInsert, DEvent.dbUpdateStep "dispatched" none, DEvent.writeInput],
           DOutcome.exnRaised (capacityMsg (⟨1, 60, "m",
             [⟨"conductor-agent-0", "wt", some "m", true, 0⟩], 1⟩ : PoolState).max_sessions))
      ∧ lastDbStatus (dispatch_step
          (fun s => if s = "G" then Except.ok (7 : Nat) else Except.error "boom")
          "standard" "3.2"
          (Except.error (capacityMsg (⟨1, 60, "m",
            [⟨"conductor-agent-0", "wt", some "m", true, 0⟩], 1⟩ : PoolState).max_sessions))
          (Except.ok ()) (Except.ok ()) "in.json" "out.json" [] 2).1 = some "dispatched"
      ∧ (dispatch_step (fun s => if s = "G" then Except.ok (7 : Nat) else Except.error "boom")
          "standard" "3.2"
          (Except.error (capacityMsg (⟨1, 60, "m",
            [⟨"conductor-agent-0", "wt", some "m", true, 0⟩], 1⟩ : PoolState).max_sessions))
          (Except.ok ()) (Except.ok ()) "in.json" "out.json" [] 2).1.filter isReleaseEvent
        = []) :=
  ⟨⟨by decide, by decide, rfl⟩,
   c10_capacity_error_propagates (fun s => if s = "G" then Except.ok (7 : Nat) else Except.error "boom")
     "standard" "3.2" "in.json" "out.json" (Except.ok ()) (Except.ok ()) [] 2
     ⟨1, 60, "m", [⟨"conductor-agent-0", "wt", some "m", true, 0⟩], 1⟩ "wt2" none 9
     (by decide) (by decide) rfl⟩

/-- Claim C9: the per-issue dispatch task built by
`ConductorRunner._dispatch_issue` constructs `PhaseContext` with the keyword
argument `shutdown_event`, which is not a declared field of the
`PhaseContext` dataclass — the construction raises `TypeError` (dataclass
`__init__` rejects unknown keywords), so `run_phase` is never reached. The
claim states the construction succeeds; the code violates it. -/
theorem c9_phase_context_kwarg_bug :
    dataclassInitOk phaseContextFields dispatchIssueKwargs = false
    ∧ "shutdown_event" ∈ dispatchIssueKwargs
    ∧ "shutdown_event" ∉ phaseContextFields.map Prod.fst := by
  decide
